import Mathlib

/-!
# Verification of the YDBGo2 binding core (connection / node memory model)

Shallow embedding of the repository's Go sources into Lean 4.

The repository contains several competing prototype variants of the same
binding core.  Each variant is embedded in its own namespace:

* `CGo`  — `node.go`, first half (package `yottadb`): `Conn` / `Node` backed by
  C-allocated structs, with a per-connection value buffer.
* `Main` — `node.go`, second half (package `main`): prototype `connection` /
  `node` with a by-value connection and no zero-component check.
* `V1`   — `src/unnamed/part_000`, first half (package `yottadb`):
  `connection` / `node` where the descriptor-filling loop writes to a by-value
  copy of the array element.
* `V2`   — `src/unnamed/part_000`, second half (package `yottadb`): the most
  complete variant, with `String`, `Set` and a retrying `Get`.

Modelling conventions:

* Go strings and byte slices are modelled as `List Char` (`GoStr`), one `Char`
  per byte; `len(s)` is `List.length`.
* A C `ydb_buffer_t` is modelled as the bytes stored in the region its
  `buf_addr` points at (`data`), plus `len_alloc` and `len_used`.  Machine
  addresses are abstracted away: a descriptor carries the bytes it denotes.
* A Go `panic` is modelled as `Option.none` (for constructors) or an explicit
  `panicked` flag (for `Set`/`Get` results); fallible results are explicit.
* The native engine (`ydb_get_st` / `ydb_set_st`) is opaque (out of scope per
  the binding's own boundary), so native calls are parameterised by an oracle
  giving the status code, the bytes written into the output buffer, and the
  error text written into the connection's error buffer.  For `Get` the oracle
  is a function of the `len_alloc` that the binding hands to the native layer,
  which is the only argument that varies between the first call and the retry.
* Each `Set`/`Get` result records the list of native calls issued (a ghost
  trace), so that "issues exactly one native call" and "retries exactly once"
  are statable.
-/

/-- Go strings / byte slices, one `Char` per byte. -/
abbrev GoStr := List Char

/-! ## Constants from `libyottadb.h` (external interface)

The numeric values of the error sentinels are abstract: the claims only use
that `YDB_OK` differs from every error code and that the error codes are
pairwise distinct, which the chosen values satisfy. -/

def YDB_OK : Int := 0
def YDB_ERR_INVSTRLEN : Int := -150374986
def YDB_ERR_GVUNDEF : Int := -150373850
def YDB_ERR_LVUNDEF : Int := -150373858
def YDB_NOTTP : Nat := 0
def YDB_MAX_ERRORMSG : Nat := 1024
def YDB_MAX_STR : Nat := 1048576
def YDB_MAX_SUBS : Nat := 31

/-- A C `ydb_buffer_t`: `data` models the bytes stored in the region that
`buf_addr` points at (addresses themselves are abstracted). -/
structure ydb_buffer_t where
  data : GoStr
  len_alloc : Nat
  len_used : Nat
deriving DecidableEq, Repr

instance : Inhabited ydb_buffer_t := ⟨⟨[], 0, 0⟩⟩

/-- `C.GoStringN(buf.buf_addr, buf.len_used)`: copy out the first `len_used`
bytes of the region a buffer points at. -/
def GoStringN (buf : ydb_buffer_t) : GoStr := buf.data.take buf.len_used

/-! ## `YDBError` (error type of package `yottadb`) -/

/-- `YDBError`: numeric error value plus the formatted message. -/
structure YDBError where
  code : Int
  msg : GoStr
deriving DecidableEq, Repr

/-- `func Error(code int, message string) error` -/
def Error (code : Int) (message : GoStr) : YDBError := ⟨code, message⟩

/-- `func (err *YDBError) Error() string` -/
def YDBError.ErrorMsg (err : YDBError) : GoStr := err.msg

/-- `func (err *YDBError) Code() int` -/
def YDBError.Code (err : YDBError) : Int := err.code

/-- Alias for `Error` usable inside the variant namespaces, where the bare
name `Error` would resolve to the `connection.Error` method being defined. -/
def toError (code : Int) (message : GoStr) : YDBError := Error code message

/-- The descriptor one loop iteration of the node constructors fills for a
component string `s`: `buf_addr` pointing at `s`'s bytes,
`len_alloc = len(s)`, `len_used = buf.len_alloc`. -/
def descOf (s : GoStr) : ydb_buffer_t := ⟨s, s.length, s.length⟩

/-- The framing literal `("` written before each subscript by `String`. -/
def quoteOpen : GoStr := "(\"".data

/-- The framing literal `")` written after each subscript by `String`. -/
def quoteClose : GoStr := "\")".data

/-! ## Native-call oracles and ghost call records -/

/-- Outcome of one native `ydb_get_st` call: the status code, the `len_used`
the native layer sets on the output buffer (the value length on `YDB_OK`, the
required length on `YDB_ERR_INVSTRLEN`), the bytes it writes into the output
buffer, and the error text it leaves in the connection's error buffer. -/
structure GetOutcome where
  status : Int
  retLenUsed : Nat
  retData : GoStr
  errText : GoStr
deriving DecidableEq, Repr

/-- Behaviour of `ydb_get_st` for a fixed node and token, as a function of the
`len_alloc` of the output buffer handed to it (the only varying argument
between the initial call and the retry). -/
abbrev GetOracle := Nat → GetOutcome

/-- Outcome of one native `ydb_set_st` call. -/
structure SetOutcome where
  status : Int
  errText : GoStr
deriving DecidableEq, Repr

/-- Ghost record of the arguments handed to one native `ydb_set_st` call:
the token, the contents of the error buffer passed by pointer, the variable
name descriptor, the subscript count, and the value descriptor. -/
structure SetCall where
  tptoken : Nat
  errstr : ydb_buffer_t
  varname : ydb_buffer_t
  subs_used : Nat
  value : ydb_buffer_t
deriving DecidableEq, Repr

namespace V2

/-!
## Variant `V2`: `src/unnamed/part_000`, second half (package `yottadb`)
-/

/-- `type connection struct { tptoken; space []byte; errstr ydb_buffer_t; pinner }`.
The `pinner` (pure memory-lifetime bookkeeping) is not modelled. -/
structure connection where
  tptoken : Nat
  space : GoStr
  errstr : ydb_buffer_t
deriving DecidableEq, Repr

/-- `func New() (conn *connection)`: fresh token, `space` of
`YDB_MAX_ERRORMSG` zero bytes, `errstr` pointing at `space` with
`len_alloc = len(space)` and `len_used = 0`. -/
def New : connection :=
  let space := List.replicate YDB_MAX_ERRORMSG (Char.ofNat 0)
  { tptoken := YDB_NOTTP
    space := space
    errstr := ⟨space, space.length, 0⟩ }

/-- `func (conn *connection) Error(code C.int) error`: `nil` on `YDB_OK`,
otherwise an error carrying the code and a copy of the first `len_used` bytes
of the error buffer.  The Go body performs no writes, so the embedding is a
pure reader of `conn`. -/
def connection.Error (conn : connection) (code : Int) : Option YDBError :=
  if code = YDB_OK then none
  else some (toError code (GoStringN conn.errstr))

/-- `type node struct { conn connection; bufGo []string; bufC [YDB_MAX_SUBS+1]ydb_buffer_t; pinner; mutable bool }`.
Note `conn` is a *by-value* field.  `bufC` is modelled by the list of filled
descriptors; the remaining slots of the fixed-size array stay at the zero
descriptor, which indexing with `List.getD _ _ default` reproduces. -/
structure node where
  conn : connection
  bufGo : List GoStr
  bufC : List ydb_buffer_t
  mutable : Bool
deriving DecidableEq, Repr

/-- `func (conn *connection) New(subscripts ...string) (n *node)`:
panics (`none`) on zero subscripts; otherwise copies `*conn` into the node,
retains the strings in `bufGo`, and fills descriptor `i` (via `&n.bufC[i]`)
with `buf_addr` pointing at subscript `i`, `len_alloc = len(s)`,
`len_used = buf.len_alloc`. -/
def connection.New (conn : connection) (subscripts : List GoStr) : Option node :=
  if subscripts.length = 0 then none
  else some
    { conn := conn
      mutable := false
      bufGo := subscripts
      bufC := subscripts.map descOf }

/-- The pieces written by one iteration of `node.String`'s loop: component 0
bare, every later component wrapped as `("…")`. -/
def node.stringParts (n : node) : List GoStr :=
  (List.range n.bufGo.length).map (fun i =>
    if 0 < i then quoteOpen ++ GoStringN (n.bufC.getD i default) ++ quoteClose
    else GoStringN (n.bufC.getD i default))

/-- `func (n *node) String() string`: a `strings.Builder` appends the loop's
pieces in order, i.e. concatenates `stringParts`. -/
def node.String (n : node) : GoStr := n.stringParts.flatten

/-- Result of `node.Set`, with a ghost trace of the native calls issued and
the node as it stands after the call (the native layer writes the error text
into the node's embedded connection's error buffer). -/
structure SetResult where
  error : Option YDBError
  n2 : node
  calls : List SetCall
deriving DecidableEq, Repr

/-- `func (n *node) Set(val string) error`: builds `valC` pointing directly at
`val` with both lengths `len(val)` (no copy into any connection buffer and no
capacity check), issues one `ydb_set_st` with the embedded connection's token
and error buffer, the descriptor array split as root plus `len(bufGo)-1`
subscripts, and returns the translated status. -/
def node.Set (n : node) (o : SetOutcome) (val : GoStr) : SetResult :=
  let valC : ydb_buffer_t := ⟨val, val.length, val.length⟩
  let call : SetCall :=
    ⟨n.conn.tptoken, n.conn.errstr, n.bufC.getD 0 default, n.bufGo.length - 1, valC⟩
  let errstr1 : ydb_buffer_t := ⟨o.errText, n.conn.errstr.len_alloc, o.errText.length⟩
  let n2 : node := { n with conn := { n.conn with errstr := errstr1 } }
  { error := n2.conn.Error o.status
    n2 := n2
    calls := [call] }

/-- Modelled from the spec: `InitialBufSize`, the initial capacity of the
scratch buffer `node.Get` allocates for the returned value.  The constant is
referenced by `part_000` but its defining declaration is not under `src/`;
the spec fixes only that it is the "initial scratch capacity" that a larger
value outgrows, so the default buffer size used elsewhere in the sources
(1024) is adopted. -/
def InitialBufSize : Nat := 1024

/-- Result of `node.Get`: the returned value and error, a ghost trace of the
`len_alloc` handed to each native call in order, the token used, the error
buffer passed by pointer (contents at call time), and the error buffer after
the call. -/
structure GetResult where
  value : GoStr
  error : Option YDBError
  calls : List Nat
  tptokenUsed : Nat
  errstrPassed : ydb_buffer_t
  errstrAfter : ydb_buffer_t
deriving DecidableEq, Repr

/-- `func (n *node) Get(deflt ...string) (string, error)`, line by line:
allocate a scratch buffer of `InitialBufSize`; call `ydb_get_st`; on
`YDB_ERR_INVSTRLEN` allocate a buffer of the reported `buf.len_used` bytes and
call again (once); if a default was supplied and the status is
`YDB_ERR_GVUNDEF`/`YDB_ERR_LVUNDEF`, set `value, err = deflt[0], YDB_OK`;
then, if `err == YDB_OK`, overwrite `value` with `GoStringN` of the output
buffer; return `value` and the translated status. -/
def node.Get (n : node) (o : GetOracle) (deflt : List GoStr) : GetResult :=
  let a1 := InitialBufSize
  let r1 := o a1
  let retry := r1.status = YDB_ERR_INVSTRLEN
  let a2 := if retry then r1.retLenUsed else a1
  let r := if retry then o a2 else r1
  let buf : ydb_buffer_t := ⟨r.retData, a2, r.retLenUsed⟩
  let calls := if retry then [a1, a2] else [a1]
  let errstr1 : ydb_buffer_t := ⟨r.errText, n.conn.errstr.len_alloc, r.errText.length⟩
  let subst := 0 < deflt.length ∧ (r.status = YDB_ERR_GVUNDEF ∨ r.status = YDB_ERR_LVUNDEF)
  let value1 := if subst then deflt.getD 0 [] else []
  let err1 := if subst then YDB_OK else r.status
  let value2 := if err1 = YDB_OK then GoStringN buf else value1
  { value := value2
    error := connection.Error { n.conn with errstr := errstr1 } err1
    calls := calls
    tptokenUsed := n.conn.tptoken
    errstrPassed := n.conn.errstr
    errstrAfter := errstr1 }

end V2

namespace CGo

/-!
## Variant `CGo`: `node.go`, first half (package `yottadb`)

`Conn` and `Node` are C-allocated structs.  A `Node` holds a *pointer*
(`conn *conn`) to the `Conn` that created it; the heap cell behind that
pointer is modelled by passing the pointee's current value to each method
that dereferences it, which is exactly what reading through the pointer at
call time does.  Pointer-level slips in this prototype (the file does not
compile as Go: `buf_alloc` for `len_alloc`, `&n.conn.value.buf_addr` as the
`memcpy` target, `bufC`/`bufGo` for `buffers`/`len`) are abstracted to the
operations the surrounding code and comments perform on the named buffers.
-/

/-- `typedef struct conn { uint64_t tptoken; ydb_buffer_t errstr; ydb_buffer_t value; }` -/
structure Conn where
  tptoken : Nat
  errstr : ydb_buffer_t
  value : ydb_buffer_t
deriving DecidableEq, Repr

/-- `func NewConn() *Conn`: token `YDB_NOTTP`, a freshly `malloc`ed error
buffer of `YDB_MAX_ERRORMSG` bytes (`len_used = 0`) and value buffer of
`YDB_MAX_STR` bytes (`len_used = 0`).  The `malloc`ed regions' contents are
uninitialised; only bytes below `len_used` are ever read, so the regions are
modelled as empty. -/
def NewConn : Conn :=
  { tptoken := YDB_NOTTP
    errstr := ⟨[], YDB_MAX_ERRORMSG, 0⟩
    value := ⟨[], YDB_MAX_STR, 0⟩ }

/-- `func (conn *Conn) Error(code C.int) error`: `nil` on `YDB_OK`, otherwise
an error carrying the code and a copy of the error-buffer text.  No writes. -/
def Conn.Error (conn : Conn) (code : Int) : Option YDBError :=
  if code = YDB_OK then none
  else some (toError code (GoStringN conn.errstr))

/-- `typedef struct node { conn *conn; int len; int datasize; int mutable; ydb_buffer_t buffers[]; /* char *data */ }`.
The `conn` pointer is modelled by passing the pointee to each method (see the
namespace header).  `buffers` is the descriptor array; descriptor `i` points
at component `i`'s bytes inside `data` (the in-order concatenation), so its
modelled `data` field is that component. -/
structure Node where
  len : Nat
  datasize : Nat
  mutable : Bool
  buffers : List ydb_buffer_t
  data : GoStr
deriving DecidableEq, Repr

/-- `func (conn *Conn) New(subscripts ...string) (n *Node)`: panics (`none`)
on zero strings; otherwise `calloc`s one block, concatenates the strings into
`data`, sets `len` and `mutable`, and fills descriptor `i` with `buf_addr`
pointing at string `i`'s offset and `len_used = len_alloc = len(s)`.
(`datasize` is never assigned and stays 0 from `calloc`.) -/
def Conn.New (_conn : Conn) (subscripts : List GoStr) : Option Node :=
  if subscripts.length = 0 then none
  else some
    { len := subscripts.length
      datasize := 0
      mutable := false
      buffers := subscripts.map descOf
      data := subscripts.flatten }

/-- The pieces written by one iteration of `Node.String`'s `for i := range n.len`
loop: component 0 bare, every later component wrapped as `("…")`. -/
def Node.stringParts (n : Node) : List GoStr :=
  (List.range n.len).map (fun i =>
    if 0 < i then quoteOpen ++ GoStringN (n.buffers.getD i default) ++ quoteClose
    else GoStringN (n.buffers.getD i default))

/-- `func (n *Node) String() string`: concatenation of the loop's pieces. -/
def Node.String (n : Node) : GoStr := n.stringParts.flatten

/-- Result of `Node.Set`: panic flag, returned error, the `Conn` pointee and
node after the call, and the ghost trace of native calls issued. -/
structure CGoSetResult where
  panicked : Bool
  error : Option YDBError
  conn : Conn
  n2 : Node
  calls : List SetCall
deriving DecidableEq, Repr

/-- `func (n *Node) Set(val string) error` (`conn` is the current pointee of
`n.conn`): if `len(val)` exceeds the value buffer's allocated capacity, panic
before any native call; otherwise `memcpy` `val` into the connection's value
buffer, set its `len_used = len(val)`, issue one `ydb_set_st` with the token,
the error buffer, descriptor 0 as the variable name, `n.len - 1` subscripts,
and the value buffer, and return the translated status. -/
def Node.Set (conn : Conn) (n : Node) (o : SetOutcome) (val : GoStr) : CGoSetResult :=
  if val.length > conn.value.len_alloc then
    { panicked := true, error := none, conn := conn, n2 := n, calls := [] }
  else
    let value1 : ydb_buffer_t := ⟨val, conn.value.len_alloc, val.length⟩
    let call : SetCall :=
      ⟨conn.tptoken, conn.errstr, n.buffers.getD 0 default, n.len - 1, value1⟩
    let errstr1 : ydb_buffer_t := ⟨o.errText, conn.errstr.len_alloc, o.errText.length⟩
    let conn2 : Conn := { conn with value := value1, errstr := errstr1 }
    { panicked := false
      error := conn2.Error o.status
      conn := conn2
      n2 := n
      calls := [call] }

/-- Result of `Node.Get`: panic flag, returned value and error, the `Conn`
pointee after the call, the ghost trace of `len_alloc`s handed to native
calls, and the token used. -/
structure CGoGetResult where
  panicked : Bool
  value : GoStr
  error : Option YDBError
  conn : Conn
  calls : List Nat
  tptokenUsed : Nat
  errstrPassed : ydb_buffer_t
  varnamePassed : ydb_buffer_t
  subsUsedPassed : Nat
deriving DecidableEq, Repr

/-- `func (n *Node) Get(deflt ...string) (string, error)` (`conn` is the
current pointee of `n.conn`): one `ydb_get_st` into the connection's value
buffer; on `YDB_ERR_INVSTRLEN` panic (the reallocating retry is an
unimplemented TODO); on `YDB_ERR_GVUNDEF`/`YDB_ERR_LVUNDEF` with a supplied
default return `(deflt[0], Error(YDB_OK)) = (deflt[0], nil)`; on any other
non-OK status return `("", translated error)`; on `YDB_OK` copy the value out
of the shared buffer and return it with `nil`. -/
def Node.Get (conn : Conn) (n : Node) (o : GetOracle) (deflt : List GoStr) : CGoGetResult :=
  let r := o conn.value.len_alloc
  let value1 : ydb_buffer_t := ⟨r.retData, conn.value.len_alloc, r.retLenUsed⟩
  let errstr1 : ydb_buffer_t := ⟨r.errText, conn.errstr.len_alloc, r.errText.length⟩
  let conn1 : Conn := { conn with value := value1, errstr := errstr1 }
  let calls := [conn.value.len_alloc]
  let base : CGoGetResult :=
    { panicked := false, value := [], error := none, conn := conn1
      calls := calls, tptokenUsed := conn.tptoken, errstrPassed := conn.errstr
      varnamePassed := n.buffers.getD 0 default, subsUsedPassed := n.len - 1 }
  if r.status = YDB_ERR_INVSTRLEN then
    { base with panicked := true }
  else if 0 < deflt.length ∧ (r.status = YDB_ERR_GVUNDEF ∨ r.status = YDB_ERR_LVUNDEF) then
    { base with value := deflt.getD 0 [], error := conn1.Error YDB_OK }
  else if r.status ≠ YDB_OK then
    { base with error := conn1.Error r.status }
  else
    { base with value := GoStringN conn1.value }

end CGo

namespace Main

/-!
## Variant `Main`: `node.go`, second half (package `main`)
-/

/-- `type connection struct { tptoken uint64; errstr []byte }` -/
structure connection where
  tptoken : Nat
  errstr : GoStr
deriving DecidableEq, Repr

/-- `func New() (db *connection)`: zero token (`new(connection)` zero value;
`tptoken` is never assigned), `errstr` of 1024 zero bytes. -/
def New : connection :=
  { tptoken := 0
    errstr := List.replicate 1024 (Char.ofNat 0) }

/-- `func (db *connection) SetMaxErr(errlen int)`: replaces the error buffer
with a fresh one of the requested length. -/
def connection.SetMaxErr (db : connection) (errlen : Nat) : connection :=
  { db with errstr := List.replicate errlen (Char.ofNat 0) }

/-- `type node struct { conn connection; bufGo []string; bufC [YDB_MAX_SUBS+1]ydb_buffer_t; mutable bool }` -/
structure node where
  conn : connection
  bufGo : List GoStr
  bufC : List ydb_buffer_t
  mutable : Bool
deriving DecidableEq, Repr

/-- `func (db *connection) New(subscripts ...string) (n *node)`: this caller
path has **no zero-component check** — it unconditionally builds a node,
copying `*db` by value and filling descriptor `i` (via `buf := &n.bufC[i]`)
with `len_alloc = len_used = len(s)`. -/
def connection.New (db : connection) (subscripts : List GoStr) : node :=
  { conn := db
    mutable := false
    bufGo := subscripts
    bufC := subscripts.map descOf }

end Main

namespace V1

/-!
## Variant `V1`: `src/unnamed/part_000`, first half (package `yottadb`)
-/

/-- `type connection struct { tptoken; errstrGo [YDB_MAX_ERRORMSG]byte; errstrC ydb_buffer_t }` -/
structure connection where
  tptoken : Nat
  errstrGo : GoStr
  errstrC : ydb_buffer_t
deriving DecidableEq, Repr

/-- `func New() (db *connection)`: `new(connection)` zero value (zeroed
`errstrGo` array, zero `errstrC` descriptor) with `tptoken = YDB_NOTTP`. -/
def New : connection :=
  { tptoken := YDB_NOTTP
    errstrGo := List.replicate YDB_MAX_ERRORMSG (Char.ofNat 0)
    errstrC := ⟨[], 0, 0⟩ }

/-- `func (db *connection) Error(code C.int) error` -/
def connection.Error (db : connection) (code : Int) : Option YDBError :=
  if code = YDB_OK then none
  else some (toError code (GoStringN db.errstrC))

/-- `type node struct { conn connection; bufGo []string; bufC [YDB_MAX_SUBS+1]ydb_buffer_t; mutable bool }` -/
structure node where
  conn : connection
  bufGo : List GoStr
  bufC : List ydb_buffer_t
  mutable : Bool
deriving DecidableEq, Repr

/-- `func (db *connection) New(subscripts ...string) (n *node)`: panics
(`none`) on zero subscripts; otherwise builds the node.  The loop body reads
`buf := n.bufC[i]` — a *by-value copy* of the array element (Go copies
structs on assignment; contrast `buf := &n.bufC[i]` in the other variants) —
so its three field writes land in the discarded copy and every slot of
`n.bufC` keeps the zero value that `new(node)` gave it.  The model therefore
leaves `bufC` as `YDB_MAX_SUBS + 1` zero descriptors. -/
def connection.New (db : connection) (subscripts : List GoStr) : Option node :=
  if subscripts.length = 0 then none
  else some
    { conn := db
      mutable := false
      bufGo := subscripts
      bufC := List.replicate (YDB_MAX_SUBS + 1) default }

/-- Result of `node.Set` (same shape as the `V2` variant). -/
structure SetResult where
  error : Option YDBError
  n2 : node
  calls : List SetCall
deriving DecidableEq, Repr

/-- `func (n *node) Set(val string) error`: builds `valC` pointing directly at
`val` with both lengths `len(val)`, issues one `ydb_set_st` with the embedded
connection's token and `errstrC`, and returns the translated status. -/
def node.Set (n : node) (o : SetOutcome) (val : GoStr) : SetResult :=
  let valC : ydb_buffer_t := ⟨val, val.length, val.length⟩
  let call : SetCall :=
    ⟨n.conn.tptoken, n.conn.errstrC, n.bufC.getD 0 default, n.bufGo.length - 1, valC⟩
  let errstr1 : ydb_buffer_t := ⟨o.errText, n.conn.errstrC.len_alloc, o.errText.length⟩
  let n2 : node := { n with conn := { n.conn with errstrC := errstr1 } }
  { error := n2.conn.Error o.status
    n2 := n2
    calls := [call] }

end V1

/-! ## Sample inputs used by witnesses and counterexamples -/

/-- A small concrete `V2` connection. -/
def sampleConnV2 : V2.connection := ⟨7, [], ⟨"ERR".data, 8, 0⟩⟩

/-- A second `V2` connection: `sampleConnV2` with its error buffer replaced. -/
def sampleConnV2b : V2.connection := { sampleConnV2 with errstr := ⟨"XYZW".data, 16, 0⟩ }

/-- A small concrete `V2` node over `sampleConnV2` (the value `connection.New`
returns on `["var", "s1"]`). -/
def sampleNodeV2 : V2.node :=
  { conn := sampleConnV2
    bufGo := ["var".data, "s1".data]
    bufC := ["var".data, "s1".data].map descOf
    mutable := false }

/-- A small concrete `CGo` connection with a 4-byte value buffer. -/
def sampleConnCGo : CGo.Conn := ⟨5, ⟨"E".data, 4, 1⟩, ⟨[], 4, 0⟩⟩

/-- A small concrete `CGo` node for the key `var("s1")`. -/
def sampleNodeCGo : CGo.Node :=
  { len := 2
    datasize := 0
    mutable := false
    buffers := ["var".data, "s1".data].map descOf
    data := ["var".data, "s1".data].flatten }

/-- An oracle on which every native get call reports buffer-too-small with a
required length of 2000 bytes. -/
def oracleINV : GetOracle := fun _ => ⟨YDB_ERR_INVSTRLEN, 2000, [], []⟩

/-- An oracle on which the initial native get call reports buffer-too-small
needing 5 bytes and the right-sized retry succeeds with value `hello`. -/
def oracleGrow : GetOracle := fun a =>
  if a = V2.InitialBufSize then ⟨YDB_ERR_INVSTRLEN, 5, [], []⟩
  else ⟨YDB_OK, 5, "hello".data, []⟩

/-- An oracle on which every native get call reports an undefined global
(`YDB_ERR_GVUNDEF`), leaving the output buffer's `len_used` at the 0 it was
initialised to and an error text in the error buffer. -/
def oracleGV : GetOracle := fun _ => ⟨YDB_ERR_GVUNDEF, 0, [], "GVUNDEF".data⟩

/-- An oracle on which both the initial call and the retry report
buffer-too-small (the retry still fails with some other error in a real
engine; `oracleFail` uses a generic failing status on the retry). -/
def oracleFail : GetOracle := fun a =>
  if a = V2.InitialBufSize then ⟨YDB_ERR_INVSTRLEN, 9, [], []⟩
  else ⟨-42, 0, [], "BADTHING".data⟩

/-- A native set outcome: success, no error text. -/
def setOK : SetOutcome := ⟨YDB_OK, []⟩

/-- A native set outcome: a generic failure with an error text. -/
def setBad : SetOutcome := ⟨-42, "SETERR".data⟩

/-! ## Helper lemmas -/

/-- Mapping a function of the `i`-th element over the index range of a list is
mapping it over the list. -/
theorem range_map_getD {α β : Type} (l : List α) (d : α) (g : α → β) :
    (List.range l.length).map (fun i => g (l.getD i d)) = l.map g := by
  induction l with
  | nil => simp
  | cons a t ih =>
    rw [List.length_cons, List.range_succ_eq_map, List.map_cons, List.map_map]
    simp only [Function.comp_def, List.getD_cons_zero, List.getD_cons_succ]
    rw [ih, List.map_cons]

/-- The pieces the `String` loop produces over descriptors built by `descOf`:
the root bare, each subscript wrapped as `("…")`. -/
theorem parts_desc (root : GoStr) (subs : List GoStr) :
    (List.range (root :: subs).length).map (fun i =>
      if 0 < i then quoteOpen ++ GoStringN (((root :: subs).map descOf).getD i default) ++ quoteClose
      else GoStringN (((root :: subs).map descOf).getD i default))
    = root :: subs.map (fun s => quoteOpen ++ s ++ quoteClose) := by
  rw [List.length_cons, List.range_succ_eq_map, List.map_cons, List.map_map]
  congr 1
  · simp [GoStringN, descOf]
  · have h := range_map_getD (subs.map descOf)
      default (fun b => quoteOpen ++ GoStringN b ++ quoteClose)
    rw [List.length_map] at h
    simp only [Function.comp_def, List.map_cons, List.getD_cons_succ,
      Nat.succ_pos, if_pos, Nat.zero_lt_succ]
    rw [h, List.map_map]
    apply List.map_congr_left
    intro s _
    simp [GoStringN, descOf]

/-- `V2` rendering: `String` of a freshly constructed node is the root
followed by the wrapped subscripts. -/
theorem v2_string_of_new (c : V2.connection) (root : GoStr) (subs : List GoStr) :
    (c.New (root :: subs)).map V2.node.String
      = some (root ++ (subs.map (fun s => quoteOpen ++ s ++ quoteClose)).flatten) := by
  rw [V2.connection.New, if_neg (by simp)]
  rw [Option.map_some']
  congr 1
  simp only [V2.node.String, V2.node.stringParts]
  rw [parts_desc, List.flatten_cons]

/-- `CGo` rendering: `String` of a freshly constructed node is the root
followed by the wrapped subscripts. -/
theorem cgo_string_of_new (c : CGo.Conn) (root : GoStr) (subs : List GoStr) :
    (c.New (root :: subs)).map CGo.Node.String
      = some (root ++ (subs.map (fun s => quoteOpen ++ s ++ quoteClose)).flatten) := by
  rw [CGo.Conn.New, if_neg (by simp)]
  rw [Option.map_some']
  congr 1
  simp only [CGo.Node.String, CGo.Node.stringParts]
  rw [parts_desc, List.flatten_cons]

/-! ## Claim theorems -/

/-- Claim C1 (confirmed): for every Node constructed from a non-empty
component list, `String()` returns the root name followed by each subscript
wrapped as `("subscript")` in the original order with no other separators,
reproducing every component's bytes verbatim — including subscripts that
contain the literal characters `("` or `")` — in both variants that define
`String` (`node.go` `Node.String` and `part_000` `node.String`). -/
theorem c1_string_roundtrip :
    (∀ (c : V2.connection) (root : GoStr) (subs : List GoStr),
      (c.New (root :: subs)).map V2.node.String
        = some (root ++ (subs.map (fun s => quoteOpen ++ s ++ quoteClose)).flatten))
    ∧ (∀ (c : CGo.Conn) (root : GoStr) (subs : List GoStr),
      (c.New (root :: subs)).map CGo.Node.String
        = some (root ++ (subs.map (fun s => quoteOpen ++ s ++ quoteClose)).flatten)) :=
  ⟨v2_string_of_new, cgo_string_of_new⟩

/-- Claim C9 (confirmed): a Node constructed with exactly one component (the
root name only) renders as exactly the root name's bytes, with no framing
characters, in both variants that define `String`. -/
theorem c9_single_component_string :
    (∀ (c : V2.connection) (root : GoStr),
      (c.New [root]).map V2.node.String = some root)
    ∧ (∀ (c : CGo.Conn) (root : GoStr),
      (c.New [root]).map CGo.Node.String = some root) := by
  constructor
  · intro c root
    simpa using v2_string_of_new c root []
  · intro c root
    simpa using cgo_string_of_new c root []

/-- Claim C2 (counterexample): the claim says constructing a Node with zero
components is rejected as a fatal usage error for *every* caller path, but
the package-main `connection.New` in `node.go` has no zero-component check:
applied to an empty component list it succeeds and returns a node. -/
theorem c2_zero_components_accepted_in_main :
    Main.connection.New Main.New []
      = { conn := Main.New, bufGo := [], bufC := [], mutable := false } := rfl

/-- Claim C2 (amended, proved): constructing with zero components panics in
`Conn.New` (`node.go`, package `yottadb`) and in both `part_000`
`connection.New` variants, and constructing with exactly one component
succeeds on every path; however the package-main prototype `connection.New`
accepts zero components and returns a node. -/
theorem c2_construction_invariant_amended :
    (∀ (c : CGo.Conn) (s : GoStr), c.New [] = none ∧ (c.New [s]).isSome = true)
    ∧ (∀ (c : V1.connection) (s : GoStr), c.New [] = none ∧ (c.New [s]).isSome = true)
    ∧ (∀ (c : V2.connection) (s : GoStr), c.New [] = none ∧ (c.New [s]).isSome = true)
    ∧ (∀ (c : Main.connection) (subscripts : List GoStr),
        (Main.connection.New c subscripts).bufGo = subscripts
        ∧ (Main.connection.New c subscripts).conn = c) := by
  refine ⟨fun c s => ⟨rfl, rfl⟩, fun c s => ⟨rfl, rfl⟩, fun c s => ⟨rfl, rfl⟩,
    fun c subscripts => ⟨rfl, rfl⟩⟩

/-- Claim C5 (confirmed): translate-status (`Error` on a connection) returns
`nil` exactly when the code is the `YDB_OK` sentinel, and for every other
code returns an error carrying that numeric code and a copy of the text
currently held in the error buffer (`GoStringN` copies the first `len_used`
bytes out).  The Go bodies perform no writes, so the embeddings are pure
readers of the connection: the error buffer is neither cleared nor modified.
Holds for all three variants defining `Error`. -/
theorem c5_translate_status :
    ∀ code : Int,
      (∀ c : CGo.Conn, (c.Error code = none ↔ code = YDB_OK)
        ∧ (code ≠ YDB_OK → c.Error code = some (Error code (GoStringN c.errstr))))
      ∧ (∀ c : V1.connection, (c.Error code = none ↔ code = YDB_OK)
        ∧ (code ≠ YDB_OK → c.Error code = some (Error code (GoStringN c.errstrC))))
      ∧ (∀ c : V2.connection, (c.Error code = none ↔ code = YDB_OK)
        ∧ (code ≠ YDB_OK → c.Error code = some (Error code (GoStringN c.errstr)))) := by
  intro code
  by_cases h : code = YDB_OK <;>
    refine ⟨fun c => ⟨?_, ?_⟩, fun c => ⟨?_, ?_⟩, fun c => ⟨?_, ?_⟩⟩ <;>
    simp [CGo.Conn.Error, V1.connection.Error, V2.connection.Error, toError, h]

/-- Claim C5 witness: instantiation at a non-OK code and a concrete
connection. -/
theorem c5_translate_status_witness :
    (-42 : Int) ≠ YDB_OK
    ∧ sampleConnCGo.Error (-42) = some (Error (-42) (GoStringN sampleConnCGo.errstr)) :=
  ⟨by decide, (((c5_translate_status (-42)).1) sampleConnCGo).2 (by decide)⟩

/-- Claim C7 (code bug, evaluated): in the `part_000` first variant, the
descriptor-filling loop reads `buf := n.bufC[i]`, a by-value copy of the
array element, so its writes are discarded and every descriptor stays at the
zero value after construction: for `connection.New("var")`, descriptor 0 has
`len_alloc = len_used = 0` (and no data), not the component's byte length 3.
The other two `yottadb` constructors take `&n.bufC[i]` and do satisfy the
invariant, confirming the intent. -/
theorem c7_v1_descriptor_left_zero :
    (V1.New.New ["var".data]).map (fun n => (n.bufC.getD 0 default, n.bufGo.getD 0 []))
      = some (⟨[], 0, 0⟩, "var".data)
    ∧ ("var".data).length = 3
    ∧ (∀ (c : V2.connection) (subscripts : List GoStr),
        (c.New subscripts).map V2.node.bufC
          = if subscripts.length = 0 then none else some (subscripts.map descOf))
    ∧ (∀ (c : CGo.Conn) (subscripts : List GoStr),
        (c.New subscripts).map CGo.Node.buffers
          = if subscripts.length = 0 then none else some (subscripts.map descOf)) := by
  refine ⟨rfl, rfl, fun c subscripts => ?_, fun c subscripts => ?_⟩ <;>
    by_cases h : subscripts.length = 0 <;>
    simp [V2.connection.New, CGo.Conn.New, h]

/-- Claim C10 (confirmed): `Set` never changes the Node's own state — the
descriptor array, the retained component strings, the component count (for
`CGo`, the whole node including `len`, `datasize` and backing `data`), and
the `mutable` flag are identical before and after — and on the connection
side only the value buffer and error buffer change (the token is preserved).
Holds for all three variants defining `Set`. -/
theorem c10_set_frame :
    (∀ (conn : CGo.Conn) (n : CGo.Node) (o : SetOutcome) (val : GoStr),
      (CGo.Node.Set conn n o val).n2 = n
      ∧ (CGo.Node.Set conn n o val).conn.tptoken = conn.tptoken
      ∧ (CGo.Node.Set conn n o val).conn.value.len_alloc = conn.value.len_alloc)
    ∧ (∀ (n : V2.node) (o : SetOutcome) (val : GoStr),
      (n.Set o val).n2.bufC = n.bufC
      ∧ (n.Set o val).n2.bufGo = n.bufGo
      ∧ (n.Set o val).n2.mutable = n.mutable
      ∧ (n.Set o val).n2.conn.tptoken = n.conn.tptoken)
    ∧ (∀ (n : V1.node) (o : SetOutcome) (val : GoStr),
      (n.Set o val).n2.bufC = n.bufC
      ∧ (n.Set o val).n2.bufGo = n.bufGo
      ∧ (n.Set o val).n2.mutable = n.mutable
      ∧ (n.Set o val).n2.conn.tptoken = n.conn.tptoken) := by
  refine ⟨fun conn n o val => ?_, fun n o val => ⟨rfl, rfl, rfl, rfl⟩,
    fun n o val => ⟨rfl, rfl, rfl, rfl⟩⟩
  by_cases h : val.length > conn.value.len_alloc <;>
    simp [CGo.Node.Set, h]

/-- Claim C3 (counterexample): the claim says every `Get` reacts to
buffer-too-small by retrying exactly once with a right-sized buffer and, if
still failing, surfacing an ordinary translated error; but the `node.go`
`Node.Get` panics on `YDB_ERR_INVSTRLEN` (an explicit unimplemented-TODO
branch): on an oracle reporting buffer-too-small it panics after the single
native call, issuing no retry and returning no error. -/
theorem c3_nodego_get_fatal_on_invstrlen :
    (CGo.Node.Get sampleConnCGo sampleNodeCGo oracleINV []).panicked = true
    ∧ (CGo.Node.Get sampleConnCGo sampleNodeCGo oracleINV []).calls
        = [sampleConnCGo.value.len_alloc]
    ∧ (CGo.Node.Get sampleConnCGo sampleNodeCGo oracleINV []).error = none := by
  decide

/-- Claim C3 (amended, proved): in the `part_000` second-variant `Get`, if the
initial native call does not report buffer-too-small there is exactly one
native call; if it does, `Get` retries exactly once, with a buffer sized to
exactly the length the native layer reported was needed, and if the retry
still fails (any non-OK status not absorbed by a supplied default) the status
is surfaced as an ordinary translated error with the empty value.  The
`node.go` `Node.Get` variant instead fails fatally (panics) on
buffer-too-small. -/
theorem c3_get_retry_amended :
    (∀ (n : V2.node) (o : GetOracle) (deflt : List GoStr),
      ((o V2.InitialBufSize).status ≠ YDB_ERR_INVSTRLEN →
        (n.Get o deflt).calls = [V2.InitialBufSize])
      ∧ ((o V2.InitialBufSize).status = YDB_ERR_INVSTRLEN →
        (n.Get o deflt).calls = [V2.InitialBufSize, (o V2.InitialBufSize).retLenUsed])
      ∧ ((o V2.InitialBufSize).status = YDB_ERR_INVSTRLEN →
        (o (o V2.InitialBufSize).retLenUsed).status ≠ YDB_OK →
        ¬(0 < deflt.length
          ∧ ((o (o V2.InitialBufSize).retLenUsed).status = YDB_ERR_GVUNDEF
             ∨ (o (o V2.InitialBufSize).retLenUsed).status = YDB_ERR_LVUNDEF)) →
        (n.Get o deflt).value = []
        ∧ (n.Get o deflt).error
            = some (Error (o (o V2.InitialBufSize).retLenUsed).status
                          (o (o V2.InitialBufSize).retLenUsed).errText)))
    ∧ (∀ (conn : CGo.Conn) (n : CGo.Node) (o : GetOracle) (deflt : List GoStr),
        (o conn.value.len_alloc).status = YDB_ERR_INVSTRLEN →
        (CGo.Node.Get conn n o deflt).panicked = true
        ∧ (CGo.Node.Get conn n o deflt).calls = [conn.value.len_alloc]) := by
  constructor
  · intro n o deflt
    by_cases h : (o V2.InitialBufSize).status = YDB_ERR_INVSTRLEN
    · refine ⟨fun hc => absurd h hc, fun _ => ?_, fun _ h2 h3 => ?_⟩
      · simp [V2.node.Get, h]
      · constructor <;>
          simp [V2.node.Get, h, h3, h2, V2.connection.Error, toError, GoStringN,
            List.take_length]
    · refine ⟨fun _ => ?_, fun hc => absurd hc h, fun hc => absurd hc h⟩
      simp [V2.node.Get, h]
  · intro conn n o deflt h
    constructor <;> simp [CGo.Node.Get, h]

/-- Claim C3 witness: on `oracleGrow` the initial call reports
buffer-too-small needing 5 bytes, and `Get` issues exactly the initial call
plus one retry sized to 5. -/
theorem c3_get_retry_witness :
    (oracleGrow V2.InitialBufSize).status = YDB_ERR_INVSTRLEN
    ∧ (sampleNodeV2.Get oracleGrow []).calls
        = [V2.InitialBufSize, (oracleGrow V2.InitialBufSize).retLenUsed] :=
  ⟨by decide, ((c3_get_retry_amended.1 sampleNodeV2 oracleGrow []).2.1 (by decide))⟩

/-- Claim C4 (code bug, evaluated): `part_000`'s second-variant `Get`, called
with a default on an undefined key (native status `YDB_ERR_GVUNDEF`, output
buffer `len_used` left at the 0 it was initialised to), returns the *stale
output-buffer contents* `("", nil)` instead of the supplied default
`("D", nil)`: after substituting `value, err = deflt[0], YDB_OK`, the
subsequent `if err == YDB_OK` block overwrites `value` with `GoStringN` of
the untouched output buffer.  This contradicts the function's own doc comment
("If deflt is supplied return string deflt[0] instead of GVUNDEF or LVUNDEF
errors") and the claim; the `node.go` `Node.Get` (which returns `deflt[0]`
directly) behaves as claimed, as the final conjunct shows. -/
theorem c4_default_overwritten :
    (sampleNodeV2.Get oracleGV ["D".data]).value = []
    ∧ (sampleNodeV2.Get oracleGV ["D".data]).error = none
    ∧ "D".data ≠ ([] : GoStr)
    ∧ (CGo.Node.Get sampleConnCGo sampleNodeCGo oracleGV ["D".data]).value = "D".data
    ∧ (CGo.Node.Get sampleConnCGo sampleNodeCGo oracleGV ["D".data]).error = none := by
  decide

/-- Claim C6 (counterexample): the claim says the fatal overflow policy (not
transparent growth) is applied consistently for both `Set` and `Get`; but the
`part_000` second-variant `Get` transparently grows its buffer: on an oracle
whose initial call reports buffer-too-small, it retries with the right-sized
buffer and returns the full value with no error and no fatality. -/
theorem c6_part000_get_growth_not_fatal :
    (sampleNodeV2.Get oracleGrow []).value = "hello".data
    ∧ (sampleNodeV2.Get oracleGrow []).error = none
    ∧ (sampleNodeV2.Get oracleGrow []).calls = [V2.InitialBufSize, 5] := by
  decide

/-- Claim C6 (amended, proved): in the `node.go` `Conn`/`Node` variant (the
one whose connection owns a value buffer), a `Set` whose value exceeds the
value buffer's capacity panics before issuing any native call; otherwise
`Set` copies the value into the connection's value buffer, records the used
length, issues exactly one native set call, and returns the translated
status; and that variant's `Get` is likewise fatal on buffer-too-small.  The
`part_000` variants instead pass the value by pointing a fresh descriptor
directly at the string, with no capacity check (and their `Get` grows
transparently, as the counterexample shows). -/
theorem c6_set_policy_amended :
    (∀ (conn : CGo.Conn) (n : CGo.Node) (o : SetOutcome) (val : GoStr),
      (val.length > conn.value.len_alloc →
        (CGo.Node.Set conn n o val).panicked = true
        ∧ (CGo.Node.Set conn n o val).calls = [])
      ∧ (¬ val.length > conn.value.len_alloc →
        (CGo.Node.Set conn n o val).panicked = false
        ∧ (CGo.Node.Set conn n o val).conn.value
            = ⟨val, conn.value.len_alloc, val.length⟩
        ∧ (CGo.Node.Set conn n o val).calls
            = [⟨conn.tptoken, conn.errstr, n.buffers.getD 0 default, n.len - 1,
                ⟨val, conn.value.len_alloc, val.length⟩⟩]
        ∧ (CGo.Node.Set conn n o val).error
            = (if o.status = YDB_OK then none else some (Error o.status o.errText))))
    ∧ (∀ (conn : CGo.Conn) (n : CGo.Node) (o : GetOracle) (deflt : List GoStr),
        (o conn.value.len_alloc).status = YDB_ERR_INVSTRLEN →
        (CGo.Node.Get conn n o deflt).panicked = true)
    ∧ (∀ (n : V2.node) (o : SetOutcome) (val : GoStr),
        (n.Set o val).calls
          = [⟨n.conn.tptoken, n.conn.errstr, n.bufC.getD 0 default, n.bufGo.length - 1,
              ⟨val, val.length, val.length⟩⟩]) := by
  refine ⟨fun conn n o val => ⟨fun h => ?_, fun h => ?_⟩,
    fun conn n o deflt h => ?_, fun n o val => rfl⟩
  · constructor <;> simp [CGo.Node.Set, h]
  · refine ⟨?_, ?_, ?_, ?_⟩ <;>
      simp [CGo.Node.Set, h, CGo.Conn.Error, toError, GoStringN, List.take_length]
  · simp [CGo.Node.Get, h]

/-- Claim C6 witness: a value longer than the connection's value-buffer
capacity makes `node.go`'s `Set` panic with no native call issued. -/
theorem c6_set_policy_witness :
    ("hello".data.length > sampleConnCGo.value.len_alloc)
    ∧ (CGo.Node.Set sampleConnCGo sampleNodeCGo setOK "hello".data).panicked = true
    ∧ (CGo.Node.Set sampleConnCGo sampleNodeCGo setOK "hello".data).calls = [] := by
  have h := (c6_set_policy_amended.1 sampleConnCGo sampleNodeCGo setOK "hello".data).1
    (by decide)
  exact ⟨by decide, h.1, h.2⟩

/-- Claim C8 (counterexample): the claim says every Node holds a non-owning
back-reference to its creating Connection so that a later change to that
Connection (e.g. replacing its error buffer) is observed by existing Nodes;
but the `part_000` node stores a *by-value copy* (`n.conn = *conn`): a node
constructed from `sampleConnV2` keeps passing `sampleConnV2`'s original error
buffer to native calls, which differs from the replacement buffer installed
in `sampleConnV2b` (= `sampleConnV2` with its error buffer replaced). -/
theorem c8_part000_conn_copy_not_observed :
    ((sampleConnV2.New ["x".data]).map
        (fun n => (n.Set setOK "v".data).calls.map SetCall.errstr))
      = some [sampleConnV2.errstr]
    ∧ ((sampleConnV2.New ["x".data]).map
        (fun n => (n.Get oracleGV []).errstrPassed))
      = some sampleConnV2.errstr
    ∧ sampleConnV2.errstr ≠ sampleConnV2b.errstr := by
  decide

/-- Claim C8 (amended, proved): in the `node.go` variant the Node holds a
pointer to its creating `Conn`, so every native call it issues uses that
`Conn`'s *current* token and error/value buffers (the first two conjuncts,
where `conn` is the pointee at call time — a later change to the `Conn` is
observed).  In the `part_000` variants the node instead embeds a by-value
copy of the connection taken at construction time, and every native call
uses that copy's token and error buffer (the last conjunct), so later changes
to the creating connection are not observed. -/
theorem c8_backref_amended :
    (∀ (conn : CGo.Conn) (n : CGo.Node) (o : SetOutcome) (val : GoStr),
      ¬ val.length > conn.value.len_alloc →
      (CGo.Node.Set conn n o val).calls.map SetCall.tptoken = [conn.tptoken]
      ∧ (CGo.Node.Set conn n o val).calls.map SetCall.errstr = [conn.errstr])
    ∧ (∀ (conn : CGo.Conn) (n : CGo.Node) (o : GetOracle) (deflt : List GoStr),
      (CGo.Node.Get conn n o deflt).tptokenUsed = conn.tptoken
      ∧ (CGo.Node.Get conn n o deflt).errstrPassed = conn.errstr
      ∧ (CGo.Node.Get conn n o deflt).calls = [conn.value.len_alloc])
    ∧ (∀ (c0 : V2.connection) (root : GoStr) (subs : List GoStr) (o : SetOutcome)
        (val : GoStr) (og : GetOracle) (deflt : List GoStr),
      (c0.New (root :: subs)).map
          (fun n => (n.Set o val).calls.map SetCall.tptoken) = some [c0.tptoken]
      ∧ (c0.New (root :: subs)).map
          (fun n => (n.Set o val).calls.map SetCall.errstr) = some [c0.errstr]
      ∧ (c0.New (root :: subs)).map
          (fun n => (n.Get og deflt).tptokenUsed) = some c0.tptoken
      ∧ (c0.New (root :: subs)).map
          (fun n => (n.Get og deflt).errstrPassed) = some c0.errstr) := by
  refine ⟨fun conn n o val h => ?_, fun conn n o deflt => ?_,
    fun c0 root subs o val og deflt => ?_⟩
  · constructor <;> simp [CGo.Node.Set, h]
  · refine ⟨?_, ?_, ?_⟩ <;>
      (simp only [CGo.Node.Get]; split_ifs <;> rfl)
  · rw [V2.connection.New, if_neg (by simp)]
    refine ⟨?_, ?_, ?_, ?_⟩ <;> simp [V2.node.Set, V2.node.Get]

/-- Claim C8 witness: instantiation of the `node.go` part at a small value
that fits the buffer. -/
theorem c8_backref_witness :
    ¬ ("ab".data.length > sampleConnCGo.value.len_alloc)
    ∧ (CGo.Node.Set sampleConnCGo sampleNodeCGo setOK "ab".data).calls.map SetCall.tptoken
        = [sampleConnCGo.tptoken]
    ∧ (CGo.Node.Set sampleConnCGo sampleNodeCGo setOK "ab".data).calls.map SetCall.errstr
        = [sampleConnCGo.errstr] := by
  have h := c8_backref_amended.1 sampleConnCGo sampleNodeCGo setOK "ab".data (by decide)
  exact ⟨by decide, h.1, h.2⟩
